import Mathlib

/-!
Verification development for the usbrip common library
(`lib/core/common.py`): the `DefaultOrderedDict` container, the
`USBRipError` structured error and the tiered console reporters
(`print_info`, `print_warning`, `print_critical`, `print_secret`).

The Python code is shallowly embedded: an `OrderedDict` is a list of
key-value pairs with unique keys in insertion order; raising an
exception is returning `Except.error`; console output is a returned
list of `OutLine` records carrying the target stream, the text and the
termcolor styling the call requests.
-/

namespace Usbrip

/-- The Python exceptions the embedded code can raise. -/
inductive PyError where
  | typeError
  | keyError
  deriving DecidableEq

/-- Association-list lookup, first binding wins: dict `__getitem__`
minus the raising behaviour (callers wrap the `none` case). -/
def odLookup {K V : Type} [DecidableEq K] : List (K × V) → K → Option V
  | [], _ => none
  | p :: ps, k => if p.1 = k then some p.2 else odLookup ps k

/-- `OrderedDict.__setitem__`: overwrite in place when the key exists
(order unchanged), otherwise append the new pair at the end. -/
def odSet {K V : Type} [DecidableEq K] : List (K × V) → K → V → List (K × V)
  | [], k, v => [(k, v)]
  | p :: ps, k, v => if p.1 = k then (k, v) :: ps else p :: odSet ps k v

/-- Filling an `OrderedDict` from an iterable of pairs: repeated
`__setitem__` starting from the empty dict. -/
def odFromPairs {K V : Type} [DecidableEq K] (l : List (K × V)) : List (K × V) :=
  l.foldl (fun es p => odSet es p.1 p.2) []

/-- A positional argument a caller can hand to
`DefaultOrderedDict.__init__` through `*args`: the Python value `None`,
a callable (e.g. a stored default factory), or an iterable of key-value
pairs.  Callables and `None` are not iterables of pairs, so
`OrderedDict.__init__` rejects them. -/
inductive PosArg (K V : Type) where
  | pyNone
  | func (f : Unit → V)
  | data (l : List (K × V))

/-- The `default_factory` keyword argument of
`DefaultOrderedDict.__init__`: a callable, or some non-callable
object (which the `isinstance(default_factory, Callable)` check
rejects). -/
inductive FacArg (V : Type) where
  | callable (f : Unit → V)
  | notCallable

/-- `OrderedDict.__init__(self, *args)`: accepts at most one positional
argument, which must be an iterable of pairs. -/
def odFromArgs {K V : Type} [DecidableEq K] : List (PosArg K V) → Except PyError (List (K × V))
  | [] => Except.ok []
  | [PosArg.data l] => Except.ok (odFromPairs l)
  | [PosArg.pyNone] => Except.error PyError.typeError
  | [PosArg.func _] => Except.error PyError.typeError
  | _ => Except.error PyError.typeError

/-- The `DefaultOrderedDict` of `lib/core/common.py`: an ordered
mapping (`entries`, unique keys in insertion order) plus the stored
`_default_factory` (only a callable or `None` can ever be stored). -/
structure DefaultOrderedDict (K V : Type) where
  entries : List (K × V)
  default_factory : Option (Unit → V)

/-- `DefaultOrderedDict.__init__(self, *args, default_factory=None)`:
raise `TypeError` when `default_factory` is given but not callable,
then forward all positional arguments to `OrderedDict.__init__` and
store the factory. -/
def DefaultOrderedDict.init {K V : Type} [DecidableEq K]
    (args : List (PosArg K V)) (default_factory : Option (FacArg V)) :
    Except PyError (DefaultOrderedDict K V) :=
  match default_factory with
  | some FacArg.notCallable => Except.error PyError.typeError
  | some (FacArg.callable f) =>
    match odFromArgs args with
    | Except.error e => Except.error e
    | Except.ok es => Except.ok ⟨es, some f⟩
  | none =>
    match odFromArgs args with
    | Except.error e => Except.error e
    | Except.ok es => Except.ok ⟨es, none⟩

/-- The keys of the container in insertion order (what iteration
yields). -/
def DefaultOrderedDict.keys {K V : Type} (d : DefaultOrderedDict K V) : List K :=
  d.entries.map Prod.fst

/-- `self[key] = value` on a `DefaultOrderedDict` (the inherited
`OrderedDict.__setitem__`). -/
def DefaultOrderedDict.setItemD {K V : Type} [DecidableEq K]
    (d : DefaultOrderedDict K V) (k : K) (v : V) : DefaultOrderedDict K V :=
  ⟨odSet d.entries k v, d.default_factory⟩

/-- `DefaultOrderedDict.__getitem__` / `__missing__`: return the stored
value when the key is present; otherwise raise `KeyError` when there is
no factory, or compute `value = self._default_factory()`, store it via
`self[key] = value` and return it.  The second component is the
container after the call. -/
def DefaultOrderedDict.getItem {K V : Type} [DecidableEq K]
    (d : DefaultOrderedDict K V) (k : K) :
    Except PyError V × DefaultOrderedDict K V :=
  match odLookup d.entries k with
  | some v => (Except.ok v, d)
  | none =>
    match d.default_factory with
    | none => (Except.error PyError.keyError, d)
    | some f => (Except.ok (f ()), d.setItemD k (f ()))

/-- The stored factory as the positional Python value `__copy__` passes
to the constructor: `None` or the callable itself. -/
def facToPosArg {K V : Type} : Option (Unit → V) → PosArg K V
  | none => PosArg.pyNone
  | some f => PosArg.func f

/-- `DefaultOrderedDict.copy` / `__copy__`:
`type(self)(self._default_factory, self)` — two positional arguments,
`default_factory` left at its keyword default `None`. -/
def DefaultOrderedDict.copy {K V : Type} [DecidableEq K]
    (d : DefaultOrderedDict K V) : Except PyError (DefaultOrderedDict K V) :=
  DefaultOrderedDict.init [facToPosArg d.default_factory, PosArg.data d.entries] none

/-- The `args` component of `DefaultOrderedDict.__reduce__`: the empty
tuple when there is no factory, else the one-element tuple holding the
factory (a callable, passed positionally on reconstruction). -/
def DefaultOrderedDict.reduceArgs {K V : Type}
    (d : DefaultOrderedDict K V) : List (PosArg K V) :=
  match d.default_factory with
  | none => []
  | some f => [PosArg.func f]

/-- Unpickling the `__reduce__` tuple `(cls, args, None, None, items)`:
call `cls(*args)` (keyword `default_factory` absent, hence `None`),
then replay `obj[k] = v` for every item. -/
def DefaultOrderedDict.deserialize {K V : Type} [DecidableEq K]
    (args : List (PosArg K V)) (items : List (K × V)) :
    Except PyError (DefaultOrderedDict K V) :=
  match DefaultOrderedDict.init args none with
  | Except.error e => Except.error e
  | Except.ok d => Except.ok (items.foldl (fun d p => d.setItemD p.1 p.2) d)

/-- The full serialize-then-deserialize round trip through
`__reduce__`. -/
def DefaultOrderedDict.roundTrip {K V : Type} [DecidableEq K]
    (d : DefaultOrderedDict K V) : Except PyError (DefaultOrderedDict K V) :=
  DefaultOrderedDict.deserialize d.reduceArgs d.entries

/-!
Structured error: `USBRipError`.
-/

/-- A value stored in the `errors` detail mapping of a `USBRipError`:
the code uses integers (`errcode`) and strings (`initial_error` and
any extra keys). -/
inductive EVal where
  | intV (n : Int)
  | strV (s : String)
  deriving DecidableEq

/-- `dict.setdefault(k, v)`: insert `(k, v)` at the end when `k` is
absent, otherwise leave the mapping unchanged. -/
def setdefault {V : Type} (es : List (String × V)) (k : String) (v : V) :
    List (String × V) :=
  match odLookup es k with
  | some _ => es
  | none => es ++ [(k, v)]

/-- The `USBRipError` exception: a message plus the `errors` detail
mapping. -/
structure USBRipError where
  message : String
  errors : List (String × EVal)

/-- `USBRipError.__init__(self, message, *, errors=None)`: replace a
falsy `errors` (absent or empty) by the empty dict, then
`setdefault('errcode', 0)` and `setdefault('initial_error', '')`. -/
def USBRipError.init (message : String) (errors : Option (List (String × EVal))) :
    USBRipError :=
  let errs :=
    match errors with
    | none => []
    | some e => if e.isEmpty then [] else e
  ⟨message, setdefault (setdefault errs "errcode" (EVal.intV 0))
      "initial_error" (EVal.strV "")⟩

/-!
Tiered reporter: `print_info`, `print_warning`, `print_critical`,
`print_secret`.  The process configuration `lib.core.config` supplies
the read-only flags `QUIET`, `DEBUG` and `ISATTY`; console output is
modelled as the list of emitted lines, each carrying its stream and the
termcolor styling requested for it.
-/

/-- The read-only process configuration flags (`lib.core.config`). -/
structure Config where
  QUIET : Bool
  DEBUG : Bool
  ISATTY : Bool
  deriving DecidableEq

/-- The console stream a line is written to: `print(...)` goes to the
main output stream, `print(..., file=sys.stderr)` to the error
stream. -/
inductive OutStream where
  | stdout
  | stderr
  deriving DecidableEq

/-- The termcolor styling a reporter requests for a line (`plain` for a
bare `print`). -/
inductive Style where
  | plain
  | green
  | yellow
  | whiteOnRedBold
  | whiteBold
  deriving DecidableEq

/-- One emitted console line. -/
structure OutLine where
  stream : OutStream
  text : String
  style : Style
  deriving DecidableEq

/-- `print_info(message)`. -/
def print_info (c : Config) (message : String) : List OutLine :=
  if c.QUIET then []
  else if c.ISATTY then [⟨OutStream.stdout, "[INFO] " ++ message, Style.green⟩]
  else [⟨OutStream.stdout, "[INFO] " ++ message, Style.plain⟩]

/-- The debug-mode detail block shared verbatim by `print_warning` and
`print_critical`: `ERRCODE: {errcode}` to stdout when `errcode` is
truthy (nonzero), then `initial_error` to stderr when it is truthy
(non-empty). -/
def debug_details (errcode : Int) (initial_error : String) : List OutLine :=
  (if errcode ≠ 0
    then [⟨OutStream.stdout, "ERRCODE: " ++ toString errcode, Style.plain⟩]
    else []) ++
  (if initial_error ≠ ""
    then [⟨OutStream.stderr, initial_error, Style.plain⟩]
    else [])

/-- The main styled line of `print_warning`. -/
def warning_main (c : Config) (message : String) : OutLine :=
  if c.ISATTY then ⟨OutStream.stdout, "[WARNING] " ++ message, Style.yellow⟩
  else ⟨OutStream.stdout, "[WARNING] " ++ message, Style.plain⟩

/-- `print_warning(message, *, errcode=0, initial_error='')`. -/
def print_warning (c : Config) (message : String) (errcode : Int)
    (initial_error : String) : List OutLine :=
  if c.QUIET then []
  else (if c.DEBUG then debug_details errcode initial_error else []) ++
    [warning_main c message]

/-- The main styled line of `print_critical`. -/
def critical_main (c : Config) (message : String) : OutLine :=
  if c.ISATTY then ⟨OutStream.stdout, "[CRITICAL] " ++ message, Style.whiteOnRedBold⟩
  else ⟨OutStream.stdout, "[CRITICAL] " ++ message, Style.plain⟩

/-- `print_critical(message, *, errcode=0, initial_error='')`: no quiet
gate. -/
def print_critical (c : Config) (message : String) (errcode : Int)
    (initial_error : String) : List OutLine :=
  (if c.DEBUG then debug_details errcode initial_error else []) ++
    [critical_main c message]

/-- `print_secret(message, *, secret='')`. -/
def print_secret (c : Config) (message : String) (secret : String) : List OutLine :=
  if c.ISATTY
    then [⟨OutStream.stdout, "[SECRET] " ++ message ++ " " ++ secret, Style.whiteBold⟩]
    else [⟨OutStream.stdout, "[SECRET] " ++ message ++ " " ++ secret, Style.plain⟩]

/-- The process state a reporter call can touch: the configuration and
the console transcript.  The reporters only read the configuration and
append to the console. -/
structure World where
  cfg : Config
  console : List OutLine

/-- Append freshly emitted lines to the console transcript. -/
def World.emit (w : World) (ls : List OutLine) : World :=
  ⟨w.cfg, w.console ++ ls⟩

/-- `print_info` as a step on the whole process state. -/
def run_print_info (w : World) (message : String) : World :=
  w.emit (print_info w.cfg message)

/-- `print_warning` as a step on the whole process state. -/
def run_print_warning (w : World) (message : String) (errcode : Int)
    (initial_error : String) : World :=
  w.emit (print_warning w.cfg message errcode initial_error)

/-- `print_critical` as a step on the whole process state. -/
def run_print_critical (w : World) (message : String) (errcode : Int)
    (initial_error : String) : World :=
  w.emit (print_critical w.cfg message errcode initial_error)

/-- `print_secret` as a step on the whole process state. -/
def run_print_secret (w : World) (message : String) (secret : String) : World :=
  w.emit (print_secret w.cfg message secret)

/-!
Operation sequences on a `DefaultOrderedDict`: insertions, value
updates (both through `__setitem__`) and lookups (which may
auto-insert through the factory).
-/

/-- One container operation: `d[k] = v` or a lookup `d[k]`. -/
inductive DictOp (K V : Type) where
  | set (k : K) (v : V)
  | get (k : K)

/-- Run one operation, keeping the container state (a failed lookup
leaves the container unchanged). -/
def applyOp {K V : Type} [DecidableEq K] (d : DefaultOrderedDict K V) :
    DictOp K V → DefaultOrderedDict K V
  | DictOp.set k v => d.setItemD k v
  | DictOp.get k => (d.getItem k).2

/-- Run a sequence of operations left to right. -/
def applyOps {K V : Type} [DecidableEq K] (d : DefaultOrderedDict K V)
    (ops : List (DictOp K V)) : DefaultOrderedDict K V :=
  ops.foldl applyOp d

/-- Modelled from the spec's wording (first-insertion order): the keys
a sequence of operations newly introduces, in the order of their first
insertion, given whether a default factory is present and the keys
already in the container. -/
def firstInsertionKeys {K V : Type} [DecidableEq K] (hasFac : Bool) :
    List K → List (DictOp K V) → List K
  | _, [] => []
  | seen, DictOp.set k _ :: rest =>
    if k ∈ seen then firstInsertionKeys hasFac seen rest
    else k :: firstInsertionKeys hasFac (seen ++ [k]) rest
  | seen, DictOp.get k :: rest =>
    if k ∈ seen then firstInsertionKeys hasFac seen rest
    else if hasFac then k :: firstInsertionKeys hasFac (seen ++ [k]) rest
    else firstInsertionKeys hasFac seen rest

/-!
Lemmas about the embedded dictionary operations.
-/

theorem odLookup_eq_none_iff {K V : Type} [DecidableEq K]
    (es : List (K × V)) (k : K) :
    odLookup es k = none ↔ k ∉ es.map Prod.fst := by
  induction es with
  | nil => simp [odLookup]
  | cons p ps ih =>
    rw [odLookup]
    by_cases h : p.1 = k
    · rw [if_pos h]
      constructor
      · intro hc
        exact Option.noConfusion hc
      · intro hmem
        exact (hmem (by rw [List.map_cons, ← h]; exact List.mem_cons_self _ _)).elim
    · rw [if_neg h, ih]
      constructor
      · intro hnot hmem
        rw [List.map_cons] at hmem
        rcases List.mem_cons.mp hmem with h1 | h2
        · exact h h1.symm
        · exact hnot h2
      · intro hnot hmem
        exact hnot (by rw [List.map_cons]; exact List.mem_cons_of_mem _ hmem)

theorem mem_keys_of_odLookup_some {K V : Type} [DecidableEq K]
    {es : List (K × V)} {k : K} {v : V} (h : odLookup es k = some v) :
    k ∈ es.map Prod.fst := by
  by_contra hk
  rw [← odLookup_eq_none_iff es k] at hk
  rw [h] at hk
  exact Option.noConfusion hk

theorem odSet_map_fst {K V : Type} [DecidableEq K]
    (es : List (K × V)) (k : K) (v : V) :
    (odSet es k v).map Prod.fst =
      if k ∈ es.map Prod.fst then es.map Prod.fst else es.map Prod.fst ++ [k] := by
  induction es with
  | nil => simp [odSet]
  | cons p ps ih =>
    by_cases h : p.1 = k
    · simp [odSet, h]
    · have hne : ¬ k = p.1 := fun hk => h hk.symm
      by_cases hmem : k ∈ ps.map Prod.fst
      · simp [odSet, h, hne, hmem, ih]
      · simp [odSet, h, hne, hmem, ih]

theorem odSet_of_lookup_none {K V : Type} [DecidableEq K]
    {es : List (K × V)} {k : K} (v : V) (h : odLookup es k = none) :
    odSet es k v = es ++ [(k, v)] := by
  induction es with
  | nil => simp [odSet]
  | cons p ps ih =>
    by_cases hp : p.1 = k
    · rw [odLookup, if_pos hp] at h
      exact Option.noConfusion h
    · rw [odLookup, if_neg hp] at h
      simp [odSet, hp, ih h]

theorem odLookup_append_of_some {K V : Type} [DecidableEq K]
    {es : List (K × V)} {k : K} {v : V} (l : List (K × V))
    (h : odLookup es k = some v) :
    odLookup (es ++ l) k = some v := by
  induction es with
  | nil => exact Option.noConfusion h
  | cons p ps ih =>
    by_cases hp : p.1 = k
    · rw [odLookup, if_pos hp] at h
      simp [odLookup, hp, h]
    · rw [odLookup, if_neg hp] at h
      simp [odLookup, hp, ih h]

theorem odLookup_append_singleton_self {K V : Type} [DecidableEq K]
    {es : List (K × V)} {k : K} (v : V) (h : odLookup es k = none) :
    odLookup (es ++ [(k, v)]) k = some v := by
  induction es with
  | nil => simp [odLookup]
  | cons p ps ih =>
    by_cases hp : p.1 = k
    · rw [odLookup, if_pos hp] at h
      exact Option.noConfusion h
    · rw [odLookup, if_neg hp] at h
      simp [odLookup, hp, ih h]

theorem odLookup_append_singleton_ne {K V : Type} [DecidableEq K]
    (es : List (K × V)) {k j : K} (v : V) (h : j ≠ k) :
    odLookup (es ++ [(j, v)]) k = odLookup es k := by
  induction es with
  | nil => simp [odLookup, h]
  | cons p ps ih =>
    by_cases hp : p.1 = k
    · simp [odLookup, hp]
    · simp [odLookup, hp, ih]

theorem setItemD_keys {K V : Type} [DecidableEq K]
    (d : DefaultOrderedDict K V) (k : K) (v : V) :
    (d.setItemD k v).keys = if k ∈ d.keys then d.keys else d.keys ++ [k] := by
  unfold DefaultOrderedDict.setItemD DefaultOrderedDict.keys
  exact odSet_map_fst d.entries k v

theorem getItem_snd_of_some {K V : Type} [DecidableEq K]
    {d : DefaultOrderedDict K V} {k : K} {v : V}
    (h : odLookup d.entries k = some v) :
    (d.getItem k).2 = d := by
  unfold DefaultOrderedDict.getItem
  rw [h]

theorem getItem_snd_of_none_noFac {K V : Type} [DecidableEq K]
    {d : DefaultOrderedDict K V} {k : K}
    (h : odLookup d.entries k = none) (hf : d.default_factory = none) :
    (d.getItem k).2 = d := by
  unfold DefaultOrderedDict.getItem
  rw [h, hf]

theorem getItem_snd_of_none_fac {K V : Type} [DecidableEq K]
    {d : DefaultOrderedDict K V} {k : K} {f : Unit → V}
    (h : odLookup d.entries k = none) (hf : d.default_factory = some f) :
    (d.getItem k).2 = d.setItemD k (f ()) := by
  unfold DefaultOrderedDict.getItem
  rw [h, hf]

theorem applyOp_default_factory {K V : Type} [DecidableEq K]
    (d : DefaultOrderedDict K V) (op : DictOp K V) :
    (applyOp d op).default_factory = d.default_factory := by
  cases op with
  | set k v => rfl
  | get k =>
    show ((d.getItem k).2).default_factory = d.default_factory
    unfold DefaultOrderedDict.getItem
    cases h : odLookup d.entries k with
    | some v => rfl
    | none =>
      cases hf : d.default_factory with
      | none => exact hf
      | some f => exact hf

/-- A concrete default factory used for concrete instantiations. -/
def facZero : Unit → Nat := fun _ => 0

/-- Claim C1: for every container whose default factory is present and
every absent key, a single lookup returns the factory's value and, as a
side effect, appends the pair at the end of the current key order (the
new key then maps to that value). -/
theorem default_insertion_on_get {K V : Type} [DecidableEq K]
    (d : DefaultOrderedDict K V) (k : K) (f : Unit → V)
    (hf : d.default_factory = some f) (hk : odLookup d.entries k = none) :
    d.getItem k = (Except.ok (f ()), ⟨d.entries ++ [(k, f ())], d.default_factory⟩)
  ∧ odLookup (d.getItem k).2.entries k = some (f ()) := by
  have hmain : d.getItem k
      = (Except.ok (f ()), ⟨d.entries ++ [(k, f ())], d.default_factory⟩) := by
    unfold DefaultOrderedDict.getItem
    rw [hk, hf]
    show (Except.ok (f ()), d.setItemD k (f ())) = _
    unfold DefaultOrderedDict.setItemD
    rw [odSet_of_lookup_none (f ()) hk, hf]
  refine ⟨hmain, ?_⟩
  rw [hmain]
  exact odLookup_append_singleton_self (f ()) hk

/-- Witness for C1 at a concrete input. -/
theorem default_insertion_on_get_witness :
    (DefaultOrderedDict.mk [] (some facZero) : DefaultOrderedDict Nat Nat).getItem 1
        = (Except.ok 0, DefaultOrderedDict.mk [(1, 0)] (some facZero))
  ∧ odLookup ((DefaultOrderedDict.mk [] (some facZero) :
        DefaultOrderedDict Nat Nat).getItem 1).2.entries 1 = some 0 :=
  default_insertion_on_get ⟨[], some facZero⟩ 1 facZero rfl rfl

/-- Claim C7: for every container without a default factory and every
absent key, the lookup raises `KeyError` and leaves the container
unchanged. -/
theorem no_factory_lookup_fails {K V : Type} [DecidableEq K]
    (d : DefaultOrderedDict K V) (k : K)
    (hf : d.default_factory = none) (hk : odLookup d.entries k = none) :
    d.getItem k = (Except.error PyError.keyError, d) := by
  unfold DefaultOrderedDict.getItem
  rw [hk, hf]

/-- Witness for C7 at a concrete input. -/
theorem no_factory_lookup_fails_witness :
    (DefaultOrderedDict.mk [(2, 3)] none : DefaultOrderedDict Nat Nat).getItem 1
      = (Except.error PyError.keyError, DefaultOrderedDict.mk [(2, 3)] none) :=
  no_factory_lookup_fails ⟨[(2, 3)], none⟩ 1 rfl (by decide)

/-- Claim C10: constructing with a non-callable `default_factory`
always raises `TypeError` and produces no container; construction with
a callable factory, or with none, succeeds (here with an iterable of
pairs or no positional argument at all). -/
theorem init_factory_check {K V : Type} [DecidableEq K]
    (args : List (PosArg K V)) (l : List (K × V)) (f : Unit → V) :
    DefaultOrderedDict.init args (some (FacArg.notCallable : FacArg V))
        = Except.error PyError.typeError
  ∧ DefaultOrderedDict.init [PosArg.data l] (some (FacArg.callable f))
        = Except.ok ⟨odFromPairs l, some f⟩
  ∧ DefaultOrderedDict.init [PosArg.data l] (none : Option (FacArg V))
        = Except.ok ⟨odFromPairs l, none⟩
  ∧ DefaultOrderedDict.init ([] : List (PosArg K V)) (some (FacArg.callable f))
        = Except.ok ⟨[], some f⟩ :=
  ⟨rfl, rfl, rfl, rfl⟩

/-- Claim C3 (code bug): `copy()` never returns a copy — for every
container, with or without a factory, `__copy__` passes two positional
arguments to the constructor, which forwards them to
`OrderedDict.__init__`, and the call raises `TypeError`. -/
theorem copy_always_raises {K V : Type} [DecidableEq K]
    (d : DefaultOrderedDict K V) :
    d.copy = Except.error PyError.typeError := by
  unfold DefaultOrderedDict.copy
  cases d.default_factory with
  | none => rfl
  | some f => rfl

/-- Claim C4 (code bug): for every container that carries a default
factory, the `__reduce__`-based round trip raises `TypeError` during
reconstruction (the factory is passed positionally to a constructor
whose `default_factory` is keyword-only, so `OrderedDict.__init__`
receives the callable as its iterable argument). -/
theorem roundtrip_raises_with_factory {K V : Type} [DecidableEq K]
    (d : DefaultOrderedDict K V) (f : Unit → V)
    (hf : d.default_factory = some f) :
    d.roundTrip = Except.error PyError.typeError := by
  unfold DefaultOrderedDict.roundTrip DefaultOrderedDict.deserialize
    DefaultOrderedDict.reduceArgs
  rw [hf]
  rfl

/-- Witness for C4 at a concrete input. -/
theorem roundtrip_raises_with_factory_witness :
    DefaultOrderedDict.roundTrip
        (⟨[(1, 5)], some facZero⟩ : DefaultOrderedDict Nat Nat)
      = Except.error PyError.typeError :=
  roundtrip_raises_with_factory ⟨[(1, 5)], some facZero⟩ facZero rfl

/-- Claim C8: for every sequence of insertions, value updates and
lookups (which may auto-insert through the factory), the container's
key order afterwards is the keys it started with followed by the newly
introduced keys in first-insertion order; in particular overwriting an
existing key never moves it. -/
theorem order_preservation {K V : Type} [DecidableEq K]
    (d : DefaultOrderedDict K V) (ops : List (DictOp K V)) :
    (applyOps d ops).keys
      = d.keys ++ firstInsertionKeys d.default_factory.isSome d.keys ops := by
  induction ops generalizing d with
  | nil => simp [applyOps, firstInsertionKeys]
  | cons op rest ih =>
    have hstep : applyOps d (op :: rest) = applyOps (applyOp d op) rest := rfl
    rw [hstep, ih (applyOp d op), applyOp_default_factory]
    cases op with
    | set k v =>
      by_cases hk : k ∈ d.keys
      · have h1 : (applyOp d (DictOp.set k v)).keys = d.keys := by
          show (d.setItemD k v).keys = d.keys
          rw [setItemD_keys, if_pos hk]
        rw [h1]
        simp [firstInsertionKeys, hk]
      · have h1 : (applyOp d (DictOp.set k v)).keys = d.keys ++ [k] := by
          show (d.setItemD k v).keys = d.keys ++ [k]
          rw [setItemD_keys, if_neg hk]
        rw [h1]
        simp [firstInsertionKeys, hk, List.append_assoc]
    | get k =>
      cases hl : odLookup d.entries k with
      | some v =>
        have hk : k ∈ d.keys := mem_keys_of_odLookup_some hl
        have h1 : applyOp d (DictOp.get k) = d := by
          show (d.getItem k).2 = d
          exact getItem_snd_of_some hl
        rw [h1]
        simp [firstInsertionKeys, hk]
      | none =>
        have hk : k ∉ d.keys := (odLookup_eq_none_iff d.entries k).mp hl
        cases hf : d.default_factory with
        | none =>
          have h1 : applyOp d (DictOp.get k) = d := by
            show (d.getItem k).2 = d
            exact getItem_snd_of_none_noFac hl hf
          rw [h1]
          simp [firstInsertionKeys, hk]
        | some f =>
          have h1 : (applyOp d (DictOp.get k)).keys = d.keys ++ [k] := by
            show ((d.getItem k).2).keys = d.keys ++ [k]
            rw [getItem_snd_of_none_fac hl hf, setItemD_keys, if_neg hk]
          rw [h1]
          simp [firstInsertionKeys, hk, List.append_assoc]

/-- Claim C2, counterexample: at the claim's own sample input
(debug-mode on, errcode 7, initial error `disk full`, message `x`) the
`ERRCODE` line is written to the main output stream, so the claim's
assertion that both detail lines go to the error stream is false. -/
theorem errcode_line_on_stdout_cex :
    print_warning ⟨false, true, false⟩ "x" 7 "disk full"
      = [⟨OutStream.stdout, "ERRCODE: 7", Style.plain⟩,
         ⟨OutStream.stderr, "disk full", Style.plain⟩,
         ⟨OutStream.stdout, "[WARNING] x", Style.plain⟩]
  ∧ OutStream.stdout ≠ OutStream.stderr := by
  constructor
  · rfl
  · intro hc
    exact OutStream.noConfusion hc

/-- Claim C2 as amended: with debug-mode on and quiet-mode off,
`print_warning` and `print_critical` emit, for every errcode and every
initial error, the error-code line first (to the main output stream,
present exactly when the code is nonzero), then the initial-error line
(to the error stream, present exactly when the string is non-empty),
then the main styled message — so each detail line is emitted only
when its value is non-default, in the stated order and routing. -/
theorem debug_detail_order (c : Config) (m : String) (e : Int) (i : String)
    (hq : c.QUIET = false) (hd : c.DEBUG = true) :
    print_warning c m e i
      = ((if e ≠ 0
            then [⟨OutStream.stdout, "ERRCODE: " ++ toString e, Style.plain⟩]
            else []) ++
         (if i ≠ ""
            then [⟨OutStream.stderr, i, Style.plain⟩]
            else [])) ++
        [warning_main c m]
  ∧ print_critical c m e i
      = ((if e ≠ 0
            then [⟨OutStream.stdout, "ERRCODE: " ++ toString e, Style.plain⟩]
            else []) ++
         (if i ≠ ""
            then [⟨OutStream.stderr, i, Style.plain⟩]
            else [])) ++
        [critical_main c m] := by
  constructor
  · unfold print_warning debug_details
    rw [hq, hd]
    rfl
  · unfold print_critical debug_details
    rw [hd]
    rfl

/-- Witness for C2's amended theorem: the claim's sample input, plus
the two mixed cases (nonzero code with empty cause, zero code with
non-empty cause) showing the per-line conditional emission. -/
theorem debug_detail_order_witness :
    (print_warning ⟨false, true, false⟩ "x" 7 "disk full"
        = [⟨OutStream.stdout, "ERRCODE: " ++ toString (7 : Int), Style.plain⟩,
           ⟨OutStream.stderr, "disk full", Style.plain⟩,
           warning_main ⟨false, true, false⟩ "x"]
      ∧ print_critical ⟨false, true, false⟩ "x" 7 "disk full"
        = [⟨OutStream.stdout, "ERRCODE: " ++ toString (7 : Int), Style.plain⟩,
           ⟨OutStream.stderr, "disk full", Style.plain⟩,
           critical_main ⟨false, true, false⟩ "x"])
  ∧ print_warning ⟨false, true, false⟩ "x" 7 ""
      = [⟨OutStream.stdout, "ERRCODE: " ++ toString (7 : Int), Style.plain⟩,
         warning_main ⟨false, true, false⟩ "x"]
  ∧ print_critical ⟨false, true, false⟩ "x" 0 "disk full"
      = [⟨OutStream.stderr, "disk full", Style.plain⟩,
         critical_main ⟨false, true, false⟩ "x"]
  ∧ print_warning ⟨false, true, false⟩ "x" 0 ""
      = [warning_main ⟨false, true, false⟩ "x"] :=
  ⟨debug_detail_order ⟨false, true, false⟩ "x" 7 "disk full" rfl rfl,
   (debug_detail_order ⟨false, true, false⟩ "x" 7 "" rfl rfl).1,
   (debug_detail_order ⟨false, true, false⟩ "x" 0 "disk full" rfl rfl).2,
   (debug_detail_order ⟨false, true, false⟩ "x" 0 "" rfl rfl).1⟩

/-- Claim C5: with quiet-mode on, `print_info` and `print_warning`
emit nothing, while `print_critical` still emits output. -/
theorem quiet_suppression (c : Config) (m : String) (e : Int) (i : String)
    (hq : c.QUIET = true) :
    print_info c m = [] ∧ print_warning c m e i = []
      ∧ print_critical c m e i ≠ [] := by
  refine ⟨?_, ?_, ?_⟩
  · unfold print_info
    rw [hq]
    rfl
  · unfold print_warning
    rw [hq]
    rfl
  · unfold print_critical
    simp

/-- Witness for C5 at a concrete quiet configuration. -/
theorem quiet_suppression_witness :
    print_info ⟨true, false, false⟩ "m" = []
  ∧ print_warning ⟨true, false, false⟩ "m" 0 "" = []
  ∧ print_critical ⟨true, false, false⟩ "m" 0 "" ≠ [] :=
  quiet_suppression ⟨true, false, false⟩ "m" 0 "" rfl

/-- Claim C9: every reporter call is a total step on the process state
that leaves the configuration flags untouched (the source only reads
`cfg` and writes to the console). -/
theorem reporter_preserves_config (w : World) (m s i : String) (e : Int) :
    (run_print_info w m).cfg = w.cfg
  ∧ (run_print_warning w m e i).cfg = w.cfg
  ∧ (run_print_critical w m e i).cfg = w.cfg
  ∧ (run_print_secret w m s).cfg = w.cfg :=
  ⟨rfl, rfl, rfl, rfl⟩

theorem truthy_list {α : Type} (l : List α) :
    (if l.isEmpty then ([] : List α) else l) = l := by
  cases l with
  | nil => rfl
  | cons a t => rfl

theorem odLookup_setdefault_of_some {V : Type} {es : List (String × V)}
    {k : String} {v : V} (j : String) (d : V) (h : odLookup es k = some v) :
    odLookup (setdefault es j d) k = some v := by
  unfold setdefault
  cases hj : odLookup es j with
  | some w => exact h
  | none => exact odLookup_append_of_some _ h

theorem odLookup_setdefault_self_isSome {V : Type} (es : List (String × V))
    (j : String) (d : V) :
    (odLookup (setdefault es j d) j).isSome = true := by
  unfold setdefault
  cases hj : odLookup es j with
  | some w =>
    rw [hj]
    rfl
  | none =>
    rw [odLookup_append_singleton_self d hj]
    rfl

theorem odLookup_setdefault_ne {V : Type} (es : List (String × V))
    {k j : String} (d : V) (h : j ≠ k) :
    odLookup (setdefault es j d) k = odLookup es k := by
  unfold setdefault
  cases hj : odLookup es j with
  | some w => rfl
  | none => exact odLookup_append_singleton_ne es d h

/-- Claim C6: the constructed error's `errors` mapping always holds
`errcode` (default 0) and `initial_error` (default empty); every
caller-supplied binding — for those two keys or any extra key — is
preserved; no mapping yields exactly the two defaults, and supplying
only `errcode = 5` keeps it and defaults `initial_error`. -/
theorem error_defaulting (m : String) (es : List (String × EVal))
    (k : String) (v : EVal) (hv : odLookup es k = some v) :
    (USBRipError.init m none).errors
      = [("errcode", EVal.intV 0), ("initial_error", EVal.strV "")]
  ∧ (USBRipError.init m (some [("errcode", EVal.intV 5)])).errors
      = [("errcode", EVal.intV 5), ("initial_error", EVal.strV "")]
  ∧ odLookup (USBRipError.init m (some es)).errors k = some v
  ∧ (odLookup (USBRipError.init m (some es)).errors "errcode").isSome = true
  ∧ (odLookup (USBRipError.init m (some es)).errors "initial_error").isSome = true := by
  have hes : (USBRipError.init m (some es)).errors
      = setdefault (setdefault es "errcode" (EVal.intV 0))
          "initial_error" (EVal.strV "") := by
    show setdefault (setdefault (if es.isEmpty then [] else es)
        "errcode" (EVal.intV 0)) "initial_error" (EVal.strV "") = _
    rw [truthy_list]
  refine ⟨rfl, rfl, ?_, ?_, ?_⟩
  · rw [hes]
    exact odLookup_setdefault_of_some _ _ (odLookup_setdefault_of_some _ _ hv)
  · rw [hes, odLookup_setdefault_ne _ _ (by decide)]
    exact odLookup_setdefault_self_isSome _ _ _
  · rw [hes]
    exact odLookup_setdefault_self_isSome _ _ _

/-- Witness for C6 at a concrete input carrying one extra key. -/
theorem error_defaulting_witness :
    odLookup [("user", EVal.intV 1)] "user" = some (EVal.intV 1)
  ∧ ((USBRipError.init "oops" none).errors
        = [("errcode", EVal.intV 0), ("initial_error", EVal.strV "")]
    ∧ (USBRipError.init "oops" (some [("errcode", EVal.intV 5)])).errors
        = [("errcode", EVal.intV 5), ("initial_error", EVal.strV "")]
    ∧ odLookup (USBRipError.init "oops"
          (some [("user", EVal.intV 1)])).errors "user" = some (EVal.intV 1)
    ∧ (odLookup (USBRipError.init "oops"
          (some [("user", EVal.intV 1)])).errors "errcode").isSome = true
    ∧ (odLookup (USBRipError.init "oops"
          (some [("user", EVal.intV 1)])).errors "initial_error").isSome = true) :=
  ⟨by decide, error_defaulting "oops" [("user", EVal.intV 1)] "user"
    (EVal.intV 1) (by decide)⟩

end Usbrip
